import Mathlib

/-!
# Bezier editor (`cpp-bezier`): embedding and verified properties

Shallow embedding of `curve.h` and `main.cpp`.

* `REAL` (`typedef float REAL`) is embedded as `ℚ` with exact arithmetic: every finite
  `float` is a rational number; rounding is not modelled.
* `GLint`, `GLsizei` and `int` are embedded as `Int`; the only integer arithmetic in the
  program is `height - y`, whose signed overflow is undefined in C++ and is not modelled.
* The global variables of `main.cpp` become the fields of `State`; every callback becomes
  a function on `State`.  Calls into the graphics toolkit that do not touch the globals
  (`glClearColor`, `glViewport`, `glutPostRedisplay`, ...) do not appear, except in
  `display_callback`, whose result is the list of drawing commands it issues.
* `hit_index` and `calc_bezier_to` are declared in `curve.h` but their bodies are not part
  of the sources; callbacks take them as parameters, and the definitions
  `CubicBezierCurve.calc_bezier_to` and `CubicBezierCurve.hit_index` below follow the
  written specification.
-/

namespace CppBezier

/-! ## curve.h -/

/-- The scalar type: `typedef float REAL;`. -/
abbrev REAL : Type := ℚ

/-- A point: `typedef REAL Point[2];` with component `[0]` named `x` and `[1]` named `y`. -/
structure Point where
  x : REAL
  y : REAL
deriving DecidableEq

/-- The value a `Point` holds after `SET_PT2(V, V1, V2)`: `V[0] = V1; V[1] = V2`. -/
def SET_PT2 (v1 v2 : REAL) : Point := ⟨v1, v2⟩

/-- The data members of `class CubicBezierCurve`. -/
structure CubicBezierCurve where
  control_pts : Fin 4 → Point
  biarc_pts : Fin 16 → Point
  biarc_center : Fin 16 → Point
  biarc_n : Int

/-- Modelled from the spec: the body of `CubicBezierCurve::calc_bezier_to(t, value)`, which
`curve.h` only declares.  The result pairs the curve object after the call with the point
written into `value`: `P(t) = (1-t)³·P0 + 3(1-t)²t·P1 + 3(1-t)t²·P2 + t³·P3`, evaluated
per coordinate axis by blending the four control points with the cubic Bernstein weights.
The method is declared `const` and has no side effects. -/
def CubicBezierCurve.calc_bezier_to (c : CubicBezierCurve) (t : REAL) :
    CubicBezierCurve × Point :=
  let b0 : REAL := (1 - t) ^ 3
  let b1 : REAL := 3 * (1 - t) ^ 2 * t
  let b2 : REAL := 3 * (1 - t) * t ^ 2
  let b3 : REAL := t ^ 3
  let blend : (Point → REAL) → REAL := fun axis =>
    b0 * axis (c.control_pts 0) + b1 * axis (c.control_pts 1)
      + b2 * axis (c.control_pts 2) + b3 * axis (c.control_pts 3)
  (c, ⟨blend Point.x, blend Point.y⟩)

/-- The sentinel `hit_index` returns when no control point is hit. -/
def HIT_NONE : Int := -1

/-- Modelled from the spec: the body of `CubicBezierCurve::hit_index(x, y)`, which `curve.h`
only declares.  It scans the 4 control points in stored order and returns the index of the
first point that is within the hit tolerance of the query, or the sentinel `-1` when no
control point is hit.  The tolerance is an open design parameter of the specification; it
is the predicate `within p x y` ("control point `p` is within tolerance of `(x, y)`"). -/
def CubicBezierCurve.hit_index (within : Point → Int → Int → Bool) (c : CubicBezierCurve)
    (x y : Int) : Int :=
  match (List.finRange 4).find? (fun i => within (c.control_pts i) x y) with
  | some i => (i.val : Int)
  | none => HIT_NONE

/-- A circular hit tolerance of radius `r` around the control point (compared on squared
Euclidean distances). -/
def within_radius (r : REAL) (p : Point) (x y : Int) : Bool :=
  decide ((p.x - x) ^ 2 + (p.y - y) ^ 2 ≤ r ^ 2)

/-- The query `(x, y)` coincides exactly with the control point `p`. -/
def coincides (p : Point) (x y : Int) : Prop := p.x = (x : REAL) ∧ p.y = (y : REAL)

instance (p : Point) (x y : Int) : Decidable (coincides p x y) := by
  unfold coincides; infer_instance

/-! ## main.cpp -/

/-- The global variables of `main.cpp`. -/
structure State where
  curve : CubicBezierCurve
  width : Int
  height : Int
  edit_ctrlpts_idx : Int
  isDrawControlMesh : Bool
  isDottedLine : Bool

/-- Constant `GLUT_LEFT_BUTTON` of `<GL/glut.h>`. -/
def GLUT_LEFT_BUTTON : Int := 0
/-- Constant `GLUT_MIDDLE_BUTTON` of `<GL/glut.h>`. -/
def GLUT_MIDDLE_BUTTON : Int := 1
/-- Constant `GLUT_RIGHT_BUTTON` of `<GL/glut.h>`. -/
def GLUT_RIGHT_BUTTON : Int := 2
/-- Constant `GLUT_DOWN` of `<GL/glut.h>`. -/
def GLUT_DOWN : Int := 0
/-- Constant `GLUT_UP` of `<GL/glut.h>`. -/
def GLUT_UP : Int := 1

/-- The assignment `pts[i] = p` on the control-point array. -/
def set_pt (pts : Fin 4 → Point) (i : Fin 4) (p : Point) : Fin 4 → Point :=
  fun j => if j = i then p else pts j

/-- The four `SET_PT2` statements shared by `init` and by the `'i'`/`'I'` branch of
`keyboard_callback`, in source order. -/
def set_default_pts (c : CubicBezierCurve) : CubicBezierCurve :=
  let p := set_pt c.control_pts 0 (SET_PT2 50 100)
  let p := set_pt p 1 (SET_PT2 200 300)
  let p := set_pt p 2 (SET_PT2 400 300)
  let p := set_pt p 3 (SET_PT2 550 100)
  { c with control_pts := p }

/-- The effect of `init()` on the globals. -/
def init (s : State) : State :=
  { s with curve := set_default_pts s.curve }

/-- The zero-initialised global `curve`. -/
def curve_zero : CubicBezierCurve :=
  { control_pts := fun _ => ⟨0, 0⟩
    biarc_pts := fun _ => ⟨0, 0⟩
    biarc_center := fun _ => ⟨0, 0⟩
    biarc_n := 0 }

/-- The globals at program start, with their initialisers. -/
def globals0 : State :=
  { curve := curve_zero
    width := 640
    height := 480
    edit_ctrlpts_idx := -1
    isDrawControlMesh := true
    isDottedLine := false }

/-- The state in which `main` enters the event loop: the initialisers, then `init()`. -/
def initial : State := init globals0

/-- The effect of `reshape_callback(nw, nh)` on the globals. -/
def reshape_callback (s : State) (nw nh : Int) : State :=
  { s with width := nw, height := nh }

/-- The effect of `mouse_callback(button, action, x, y)` on the globals; `hit` is
`CubicBezierCurve::hit_index`. -/
def mouse_callback (hit : CubicBezierCurve → Int → Int → Int) (s : State)
    (button action x y : Int) : State :=
  if GLUT_LEFT_BUTTON = button then
    if action = GLUT_DOWN then
      { s with edit_ctrlpts_idx := hit s.curve x (s.height - y) }
    else if action = GLUT_UP then
      { s with edit_ctrlpts_idx := -1 }
    else s
  else s

/-- The effect of `mouse_move_callback(x, y)` on the globals.  The result is `none` when
the subscript `control_pts[edit_ctrlpts_idx]` is outside the array (undefined
behaviour). -/
def mouse_move_callback (s : State) (x y : Int) : Option State :=
  if s.edit_ctrlpts_idx ≠ -1 then
    if h : 0 ≤ s.edit_ctrlpts_idx ∧ s.edit_ctrlpts_idx < 4 then
      let i : Fin 4 := ⟨s.edit_ctrlpts_idx.toNat, by omega⟩
      let p := s.curve.control_pts
      let p := set_pt p i { p i with x := (x : REAL) }
      let p := set_pt p i { p i with y := ((s.height - y : Int) : REAL) }
      some { s with curve := { s.curve with control_pts := p } }
    else none
  else some s

/-- The effect of `keyboard_callback(key, x, y)` on the globals. -/
def keyboard_callback (s : State) (key : Char) (_x _y : Int) : State :=
  if key = 'i' ∨ key = 'I' then
    { s with curve := set_default_pts s.curve }
  else if key = 'l' ∨ key = 'L' then
    { s with isDottedLine := xor s.isDottedLine true }
  else if key = 'c' ∨ key = 'C' then
    { s with isDrawControlMesh := xor s.isDrawControlMesh true }
  else if key = '1' ∨ key = '2' ∨ key = '3' ∨ key = '4' then
    s
  else s

/-! ### display_callback -/

/-- The sampling resolution: `#define RES 100`. -/
def RES : Nat := 100

/-- Primitive modes passed to `glBegin`. -/
inductive GLMode where
  | GL_LINES
  | GL_LINE_STRIP
  | GL_POINTS
deriving DecidableEq

/-- The toolkit calls `display_callback` issues. -/
inductive GLCmd where
  | glClear
  | glColor3ub (r g b : Nat)
  | glBegin (mode : GLMode)
  | glVertex2f (x y : REAL)
  | glEnd
  | glPointSize (size : REAL)
  | glutSwapBuffers
deriving DecidableEq

/-- The parameter `t = (REAL)i / (REAL)RES` of iteration `i` of the curve loop. -/
def sample_t (i : Nat) : REAL := (i : REAL) / (RES : REAL)

/-- The parameters at which the loop `for (int i = 0; i <= RES; i++)` calls
`calc_bezier_to`, in call order. -/
def display_samples : List REAL := (List.range (RES + 1)).map sample_t

/-- The vertices of the loops over `control_pts[0..3]`. -/
def control_vertices (c : CubicBezierCurve) : List GLCmd :=
  (List.finRange 4).map (fun i => GLCmd.glVertex2f (c.control_pts i).x (c.control_pts i).y)

/-- The toolkit calls of `display_callback()` in order, paired with the globals after it;
`bez` is `CubicBezierCurve::calc_bezier_to`.  No global is assigned. -/
def display_callback (bez : CubicBezierCurve → REAL → Point) (s : State) :
    State × List GLCmd :=
  let curve_cmds : List GLCmd :=
    [GLCmd.glClear, GLCmd.glColor3ub 0 0 0,
      GLCmd.glBegin (if s.isDottedLine then GLMode.GL_LINES else GLMode.GL_LINE_STRIP)]
    ++ display_samples.map (fun t => let pt := bez s.curve t; GLCmd.glVertex2f pt.x pt.y)
    ++ [GLCmd.glEnd]
  let mesh_cmds : List GLCmd :=
    if s.isDrawControlMesh then
      [GLCmd.glColor3ub 255 0 0, GLCmd.glBegin GLMode.GL_LINE_STRIP]
        ++ control_vertices s.curve ++ [GLCmd.glEnd]
    else []
  let pts_cmds : List GLCmd :=
    [GLCmd.glColor3ub 0 0 255, GLCmd.glPointSize 10, GLCmd.glBegin GLMode.GL_POINTS]
      ++ control_vertices s.curve ++ [GLCmd.glEnd, GLCmd.glutSwapBuffers]
  (s, curve_cmds ++ mesh_cmds ++ pts_cmds)

/-! ### The event loop -/

/-- The callbacks `main` registers with the toolkit, with their arguments. -/
inductive Event where
  | reshape (nw nh : Int)
  | mouse (button action x y : Int)
  | motion (x y : Int)
  | display
  | keyboard (key : Char) (x y : Int)

/-- One dispatched event; `none` when the callback runs into undefined behaviour. -/
def step (hit : CubicBezierCurve → Int → Int → Int) (bez : CubicBezierCurve → REAL → Point)
    (s : State) : Event → Option State
  | Event.reshape nw nh => some (reshape_callback s nw nh)
  | Event.mouse button action x y => some (mouse_callback hit s button action x y)
  | Event.motion x y => mouse_move_callback s x y
  | Event.display => some (display_callback bez s).1
  | Event.keyboard key x y => some (keyboard_callback s key x y)

/-- The event loop on a finite sequence of events. -/
def run (hit : CubicBezierCurve → Int → Int → Int) (bez : CubicBezierCurve → REAL → Point)
    (s : State) : List Event → Option State
  | [] => some s
  | e :: es => (step hit bez s e).bind (fun s1 => run hit bez s1 es)

/-! ### Inputs and predicates used in the statements -/

/-- The curve with control points `(0,0)`, `(1,0)`, `(1,0)`, `(9,9)`: points 1 and 2
overlap and point 0 lies one unit away from them. -/
def overlap_curve : CubicBezierCurve :=
  { curve_zero with
    control_pts := fun i =>
      if i = 0 then ⟨0, 0⟩ else if i = 1 then ⟨1, 0⟩ else if i = 2 then ⟨1, 0⟩ else ⟨9, 9⟩ }

/-- A hit test that never hits. -/
def hit_nothing : CubicBezierCurve → Int → Int → Int := fun _ _ _ => HIT_NONE

/-- The edit target is the sentinel or an index of the control-point array. -/
def idx_ok (k : Int) : Prop := k = -1 ∨ (0 ≤ k ∧ k ≤ 3)

/-! ## Auxiliary facts -/

theorem finRange_four : List.finRange 4 = [0, 1, 2, 3] := by decide

theorem set_default_pts_0 (c : CubicBezierCurve) :
    (set_default_pts c).control_pts 0 = ⟨50, 100⟩ := by
  simp [set_default_pts, set_pt, SET_PT2]

theorem set_default_pts_1 (c : CubicBezierCurve) :
    (set_default_pts c).control_pts 1 = ⟨200, 300⟩ := by
  simp [set_default_pts, set_pt, SET_PT2]

theorem set_default_pts_2 (c : CubicBezierCurve) :
    (set_default_pts c).control_pts 2 = ⟨400, 300⟩ := by
  simp [set_default_pts, set_pt, SET_PT2]

theorem set_default_pts_3 (c : CubicBezierCurve) :
    (set_default_pts c).control_pts 3 = ⟨550, 100⟩ := by
  simp [set_default_pts, set_pt, SET_PT2]

/-! ## Curve evaluation -/

/-- C1: for every control polygon and every parameter `t`, `calc_bezier_to` writes the point
`(1-t)^3*P0 + 3*(1-t)^2*t*P1 + 3*(1-t)*t^2*P2 + t^3*P3`, computed separately on the `x`
and on the `y` coordinate, and the curve object (its four control points included) is the
same after the call. -/
theorem calc_bezier_to_bernstein (c : CubicBezierCurve) (t : REAL) :
    (c.calc_bezier_to t).2.x =
        (1 - t) ^ 3 * (c.control_pts 0).x + 3 * (1 - t) ^ 2 * t * (c.control_pts 1).x
          + 3 * (1 - t) * t ^ 2 * (c.control_pts 2).x + t ^ 3 * (c.control_pts 3).x
      ∧ (c.calc_bezier_to t).2.y =
        (1 - t) ^ 3 * (c.control_pts 0).y + 3 * (1 - t) ^ 2 * t * (c.control_pts 1).y
          + 3 * (1 - t) * t ^ 2 * (c.control_pts 2).y + t ^ 3 * (c.control_pts 3).y
      ∧ (c.calc_bezier_to t).1 = c
      ∧ ∀ i, (c.calc_bezier_to t).1.control_pts i = c.control_pts i := by
  refine ⟨rfl, rfl, rfl, fun _ => rfl⟩

/-- C2 (as stated, refuted): on the default polygon of `init()` the point at `t = 0.5` is not
`(312.5, 250.0)`; its `x` coordinate differs. -/
theorem default_midpoint_not_312_5 :
    (initial.curve.calc_bezier_to (1 / 2)).2 ≠ ⟨312.5, 250⟩ ∧
      (0.125 * 50 + 0.375 * 200 + 0.375 * 400 + 0.125 * 550 : REAL) ≠ 312.5 := by
  constructor
  · intro h
    have hx := congrArg Point.x h
    simp only [CubicBezierCurve.calc_bezier_to, initial, init, set_default_pts_0,
      set_default_pts_1, set_default_pts_2, set_default_pts_3] at hx
    norm_num at hx
  · norm_num

/-- C2 (amended): after `init()`, whatever the globals were before, the point at `t = 0.5` is
`(0.125*50 + 0.375*200 + 0.375*400 + 0.125*550, 0.125*100 + 0.375*300 + 0.375*300 +
0.125*100)`, and that point is `(300, 250)`. -/
theorem default_midpoint (s : State) :
    ((init s).curve.calc_bezier_to (1 / 2)).2 =
        ⟨0.125 * 50 + 0.375 * 200 + 0.375 * 400 + 0.125 * 550,
         0.125 * 100 + 0.375 * 300 + 0.375 * 300 + 0.125 * 100⟩
      ∧ ((init s).curve.calc_bezier_to (1 / 2)).2 = ⟨300, 250⟩ := by
  have h : ((init s).curve.calc_bezier_to (1 / 2)).2 = ⟨300, 250⟩ := by
    simp only [CubicBezierCurve.calc_bezier_to, init, set_default_pts_0, set_default_pts_1,
      set_default_pts_2, set_default_pts_3]
    norm_num
  refine ⟨?_, h⟩
  rw [h]
  norm_num

/-! ## Hit testing -/

/-- The outcome of `hit_index` is either the sentinel with no control point within
tolerance, or the first index within tolerance. -/
theorem hit_index_cases (within : Point → Int → Int → Bool) (c : CubicBezierCurve)
    (x y : Int) :
    (c.hit_index within x y = -1 ∧ ∀ i, within (c.control_pts i) x y = false) ∨
      ∃ i : Fin 4, c.hit_index within x y = (i.val : Int) ∧
        within (c.control_pts i) x y = true ∧
        ∀ j, j < i → within (c.control_pts j) x y = false := by
  unfold CubicBezierCurve.hit_index
  rw [finRange_four]
  by_cases h0 : within (c.control_pts 0) x y = true
  · right; exact ⟨0, by simp [List.find?, h0], h0, fun j hj => absurd hj (by omega)⟩
  by_cases h1 : within (c.control_pts 1) x y = true
  · right
    refine ⟨1, by simp [List.find?, h0, h1], h1, fun j hj => ?_⟩
    fin_cases j <;> simp_all
  by_cases h2 : within (c.control_pts 2) x y = true
  · right
    refine ⟨2, by simp [List.find?, h0, h1, h2], h2, fun j hj => ?_⟩
    fin_cases j <;> simp_all
  by_cases h3 : within (c.control_pts 3) x y = true
  · right
    refine ⟨3, by simp [List.find?, h0, h1, h2, h3], h3, fun j hj => ?_⟩
    fin_cases j <;> simp_all
  left
  refine ⟨by simp [List.find?, h0, h1, h2, h3, HIT_NONE], fun i => ?_⟩
  fin_cases i <;> simp_all

/-- For every tolerance predicate, control polygon and query, `hit_index` returns the lowest
index in `{0,1,2,3}` whose control point is within tolerance, and `-1` when no control
point is within tolerance.  When the query coincides exactly with two or more control
points and the one of smallest index `i` is within tolerance, the returned index is that
of a control point within tolerance, it is at most `i`, and it is `i` itself whenever no
control point of lower index is within tolerance. -/
theorem hit_index_first_within (within : Point → Int → Int → Bool) (c : CubicBezierCurve)
    (x y : Int) :
    (∀ i : Fin 4, within (c.control_pts i) x y = true →
        (∀ j, j < i → within (c.control_pts j) x y = false) →
        c.hit_index within x y = (i.val : Int))
      ∧ ((∀ i, within (c.control_pts i) x y = false) → c.hit_index within x y = -1)
      ∧ (∀ i j : Fin 4, i < j →
          coincides (c.control_pts i) x y → coincides (c.control_pts j) x y →
          (∀ k, k < i → ¬ coincides (c.control_pts k) x y) →
          within (c.control_pts i) x y = true →
          ∃ r : Fin 4, c.hit_index within x y = (r.val : Int) ∧ r ≤ i ∧
            within (c.control_pts r) x y = true ∧
            (∀ k, k < r → within (c.control_pts k) x y = false) ∧
            ((∀ k, k < i → within (c.control_pts k) x y = false) → r = i)) := by
  have key : ∀ i : Fin 4, within (c.control_pts i) x y = true →
      ∃ r : Fin 4, c.hit_index within x y = (r.val : Int) ∧ r ≤ i ∧
        within (c.control_pts r) x y = true ∧
        (∀ k, k < r → within (c.control_pts k) x y = false) := by
    intro i hi
    rcases hit_index_cases within c x y with ⟨_, hnone⟩ | ⟨r, hr, hw, hlow⟩
    · rw [hnone i] at hi; cases hi
    · refine ⟨r, hr, ?_, hw, hlow⟩
      by_contra hlt
      have := hlow i (not_le.mp hlt)
      rw [this] at hi; cases hi
  refine ⟨fun i hi hlow => ?_, fun hnone => ?_, fun i j _ _ _ _ hi => ?_⟩
  · obtain ⟨r, hr, hle, hw, _⟩ := key i hi
    rcases lt_or_eq_of_le hle with hlt | heq
    · rw [hlow r hlt] at hw; cases hw
    · rw [hr, heq]
  · rcases hit_index_cases within c x y with ⟨h, _⟩ | ⟨r, _, hw, _⟩
    · exact h
    · rw [hnone r] at hw; cases hw
  · obtain ⟨r, hr, hle, hw, hlow⟩ := key i hi
    refine ⟨r, hr, hle, hw, hlow, fun hno => ?_⟩
    rcases lt_or_eq_of_le hle with hlt | heq
    · rw [hno r hlt] at hw; cases hw
    · exact heq

/-- On the polygon `(0,0)`, `(1,0)`, `(1,0)`, `(9,9)` the query `(1,0)` coincides exactly
with control points 1 and 2 and with no other.  Under a circular tolerance of radius 5,
control point 0 is within tolerance as well and `hit_index` returns 0. -/
theorem hit_index_overlap_radius_five :
    coincides (overlap_curve.control_pts 1) 1 0 ∧ coincides (overlap_curve.control_pts 2) 1 0
      ∧ ¬ coincides (overlap_curve.control_pts 0) 1 0
      ∧ ¬ coincides (overlap_curve.control_pts 3) 1 0
      ∧ overlap_curve.hit_index (within_radius 5) 1 0 = 0 := by
  have p0 : overlap_curve.control_pts 0 = ⟨0, 0⟩ := by simp [overlap_curve]
  have p1 : overlap_curve.control_pts 1 = ⟨1, 0⟩ := by simp [overlap_curve]
  have p2 : overlap_curve.control_pts 2 = ⟨1, 0⟩ := by simp [overlap_curve]
  have p3 : overlap_curve.control_pts 3 = ⟨9, 9⟩ := by simp [overlap_curve]
  have h : overlap_curve.hit_index (within_radius 5) 1 0 = 0 := by
    unfold CubicBezierCurve.hit_index
    rw [finRange_four]
    have w0 : within_radius 5 (overlap_curve.control_pts 0) 1 0 = true := by
      rw [p0]; norm_num [within_radius]
    simp [List.find?, w0]
  rw [p0, p1, p2, p3]
  refine ⟨?_, ?_, ?_, ?_, h⟩ <;> norm_num [coincides]

/-- On the same polygon and query, under a circular tolerance of radius 0 (exact match),
`hit_index` returns 1, the smallest index of the coinciding control points. -/
theorem hit_index_overlap_radius_zero :
    overlap_curve.hit_index (within_radius 0) 1 0 = 1 := by
  have p0 : overlap_curve.control_pts 0 = ⟨0, 0⟩ := by simp [overlap_curve]
  have p1 : overlap_curve.control_pts 1 = ⟨1, 0⟩ := by simp [overlap_curve]
  unfold CubicBezierCurve.hit_index
  rw [finRange_four]
  have w0 : within_radius 0 (overlap_curve.control_pts 0) 1 0 = false := by
    rw [p0]; norm_num [within_radius]
  have w1 : within_radius 0 (overlap_curve.control_pts 1) 1 0 = true := by
    rw [p1]; norm_num [within_radius]
  simp [List.find?, w0, w1]

/-! ## Keyboard -/

theorem set_default_pts_control_pts (c d : CubicBezierCurve) :
    (set_default_pts c).control_pts = (set_default_pts d).control_pts := by
  funext i
  fin_cases i <;> simp [set_default_pts, set_pt]

theorem set_default_pts_idem (c : CubicBezierCurve) :
    set_default_pts (set_default_pts c) = set_default_pts c := by
  have h := set_default_pts_control_pts (set_default_pts c) c
  cases c
  simp only [set_default_pts] at h ⊢
  rw [h]

/-- C4: from every prior state, `keyboard_callback` with key `'i'` or `'I'` leaves the
control polygon equal to `(50,100)`, `(200,300)`, `(400,300)`, `(550,100)` in index order,
which is the polygon `init()` establishes from any globals; a second reset changes
nothing, and the polygon after the reset is the same whatever the state before it. -/
theorem keyboard_reset_default (s : State) (key : Char) (x y : Int)
    (hk : key = 'i' ∨ key = 'I') :
    (keyboard_callback s key x y).curve.control_pts 0 = ⟨50, 100⟩
      ∧ (keyboard_callback s key x y).curve.control_pts 1 = ⟨200, 300⟩
      ∧ (keyboard_callback s key x y).curve.control_pts 2 = ⟨400, 300⟩
      ∧ (keyboard_callback s key x y).curve.control_pts 3 = ⟨550, 100⟩
      ∧ (∀ s0 : State,
          (keyboard_callback s key x y).curve.control_pts = (init s0).curve.control_pts)
      ∧ (∀ (key2 : Char) (x2 y2 : Int), key2 = 'i' ∨ key2 = 'I' →
          keyboard_callback (keyboard_callback s key x y) key2 x2 y2
            = keyboard_callback s key x y)
      ∧ (∀ s2 : State, (keyboard_callback s2 key x y).curve.control_pts
          = (keyboard_callback s key x y).curve.control_pts) := by
  have h1 : ∀ (t : State) (k : Char) (a b : Int), (k = 'i' ∨ k = 'I') →
      keyboard_callback t k a b = { t with curve := set_default_pts t.curve } := by
    intro t k a b hk2
    simp [keyboard_callback, hk2]
  rw [h1 s key x y hk]
  refine ⟨set_default_pts_0 _, set_default_pts_1 _, set_default_pts_2 _,
    set_default_pts_3 _, fun s0 => set_default_pts_control_pts _ _, ?_, fun s2 => ?_⟩
  · intro key2 x2 y2 hk2
    rw [h1 _ key2 x2 y2 hk2]
    simp only [set_default_pts_idem]
  · rw [h1 s2 key x y hk]
    exact set_default_pts_control_pts _ _

/-- C4 at concrete input: the reset after a drag of control point 2. -/
theorem keyboard_reset_default_witness :
    ('I' = 'i' ∨ 'I' = 'I') ∧
      (keyboard_callback { initial with edit_ctrlpts_idx := 2 } 'I' 7 9).curve.control_pts 2
        = ⟨400, 300⟩ :=
  ⟨Or.inr rfl,
    (keyboard_reset_default { initial with edit_ctrlpts_idx := 2 } 'I' 7 9 (Or.inr rfl)).2.2.1⟩

/-- C8: from every prior state, the keys `'l'`, `'L'` only negate `isDottedLine` and the
keys `'c'`, `'C'` only negate `isDrawControlMesh`, so these four keys leave the curve (its
four control points included) and the edit target unchanged; every key other than
`'i'`/`'I'` leaves the curve unchanged. -/
theorem keyboard_toggle_frame (s : State) (key : Char) (x y : Int) :
    ((key = 'l' ∨ key = 'L') →
        keyboard_callback s key x y = { s with isDottedLine := !s.isDottedLine })
      ∧ ((key = 'c' ∨ key = 'C') →
        keyboard_callback s key x y = { s with isDrawControlMesh := !s.isDrawControlMesh })
      ∧ ((key = 'l' ∨ key = 'L' ∨ key = 'c' ∨ key = 'C') →
        (∀ i, (keyboard_callback s key x y).curve.control_pts i = s.curve.control_pts i)
          ∧ (keyboard_callback s key x y).edit_ctrlpts_idx = s.edit_ctrlpts_idx)
      ∧ ((key ≠ 'i' ∧ key ≠ 'I') →
        ∀ i, (keyboard_callback s key x y).curve.control_pts i = s.curve.control_pts i) := by
  refine ⟨?_, ?_, ?_, ?_⟩
  · rintro (h | h) <;> subst h <;> simp [keyboard_callback]
  · rintro (h | h) <;> subst h <;> simp [keyboard_callback]
  · rintro (h | h | h | h) <;> subst h <;> simp [keyboard_callback]
  · rintro ⟨h1, h2⟩ i
    unfold keyboard_callback
    simp only [h1, h2, or_self, if_false]
    split_ifs <;> rfl

/-- C8 at concrete input: `'L'` after a press on control point 1, and the key `'x'`. -/
theorem keyboard_toggle_frame_witness :
    keyboard_callback { initial with edit_ctrlpts_idx := 1 } 'L' 0 0
        = { initial with edit_ctrlpts_idx := 1, isDottedLine := true }
      ∧ ∀ i, (keyboard_callback initial 'x' 0 0).curve.control_pts i
          = initial.curve.control_pts i :=
  ⟨(keyboard_toggle_frame { initial with edit_ctrlpts_idx := 1 } 'L' 0 0).1 (Or.inr rfl),
    (keyboard_toggle_frame initial 'x' 0 0).2.2.2 ⟨by decide, by decide⟩⟩

/-! ## Mouse -/

/-- C5: `mouse_move_callback(x, y)` changes no control point other than the one at the
active edit target.  With `edit_ctrlpts_idx = i` for an `i` in `{0,1,2,3}` it completes,
sets `control_pts[i]` to `(x, height - y)` and leaves the other three control points
unchanged; with `edit_ctrlpts_idx = -1` it completes and leaves the whole state unchanged.
In both cases the edit target is unchanged. -/
theorem mouse_move_frame (s : State) (x y : Int) :
    (∀ i : Fin 4, s.edit_ctrlpts_idx = (i.val : Int) →
        ∃ s1, mouse_move_callback s x y = some s1
          ∧ s1.curve.control_pts i = ⟨(x : REAL), ((s.height - y : Int) : REAL)⟩
          ∧ (∀ j, j ≠ i → s1.curve.control_pts j = s.curve.control_pts j)
          ∧ s1.edit_ctrlpts_idx = s.edit_ctrlpts_idx)
      ∧ (s.edit_ctrlpts_idx = -1 →
        ∃ s1, mouse_move_callback s x y = some s1
          ∧ (∀ j, s1.curve.control_pts j = s.curve.control_pts j)
          ∧ s1.edit_ctrlpts_idx = s.edit_ctrlpts_idx) := by
  constructor
  · intro i hi
    have hne : s.edit_ctrlpts_idx ≠ -1 := by omega
    have hb : 0 ≤ s.edit_ctrlpts_idx ∧ s.edit_ctrlpts_idx < 4 := by omega
    have hfin : (⟨s.edit_ctrlpts_idx.toNat, by omega⟩ : Fin 4) = i := by
      apply Fin.ext
      simp [hi]
    unfold mouse_move_callback
    rw [if_pos hne, dif_pos hb]
    refine ⟨_, rfl, ?_, ?_, rfl⟩
    · simp [hfin, set_pt]
    · intro j hj
      simp [hfin, set_pt, hj]
  · intro h
    exact ⟨s, by simp [mouse_move_callback, h], fun _ => rfl, rfl⟩

/-- C5 at concrete input: dragging control point 2 of the default polygon to the device
position `(10, 20)` in the 640x480 window. -/
theorem mouse_move_frame_witness :
    ∃ s1, mouse_move_callback { initial with edit_ctrlpts_idx := 2 } 10 20 = some s1
      ∧ s1.curve.control_pts 2 = ⟨10, ((480 - 20 : Int) : REAL)⟩
      ∧ (∀ j, j ≠ 2 → s1.curve.control_pts j = initial.curve.control_pts j)
      ∧ s1.edit_ctrlpts_idx = 2 :=
  (mouse_move_frame { initial with edit_ctrlpts_idx := 2 } 10 20).1 2 rfl

/-- C6 (as stated, refuted): while control point 2 is the edit target, a release of the
right button leaves the edit target at 2. -/
theorem mouse_right_release_keeps_target :
    (mouse_callback hit_nothing { initial with edit_ctrlpts_idx := 2 }
        GLUT_RIGHT_BUTTON GLUT_UP 400 180).edit_ctrlpts_idx = 2
      ∧ (mouse_callback hit_nothing { initial with edit_ctrlpts_idx := 2 }
        GLUT_RIGHT_BUTTON GLUT_UP 400 180).edit_ctrlpts_idx ≠ -1 := by
  constructor <;> simp [mouse_callback, GLUT_RIGHT_BUTTON, GLUT_LEFT_BUTTON]

/-- C6 (amended): after `mouse_callback` handles a release (`GLUT_UP`) of the left button,
from every prior state, `edit_ctrlpts_idx = -1` and nothing else has changed; a release of
any other button leaves the whole state, the edit target included, unchanged. -/
theorem mouse_release_clears_target (hit : CubicBezierCurve → Int → Int → Int) (s : State)
    (button x y : Int) :
    (button = GLUT_LEFT_BUTTON →
        mouse_callback hit s button GLUT_UP x y = { s with edit_ctrlpts_idx := -1 })
      ∧ (button ≠ GLUT_LEFT_BUTTON → mouse_callback hit s button GLUT_UP x y = s) := by
  constructor
  · intro h
    simp [mouse_callback, h, GLUT_UP, GLUT_DOWN]
  · intro h
    simp [mouse_callback, Ne.symm h]

/-- C6 (amended) at concrete input: the left and the middle button released while control
point 2 is the edit target. -/
theorem mouse_release_clears_target_witness :
    (mouse_callback hit_nothing { initial with edit_ctrlpts_idx := 2 }
        GLUT_LEFT_BUTTON GLUT_UP 400 180).edit_ctrlpts_idx = -1
      ∧ (mouse_callback hit_nothing { initial with edit_ctrlpts_idx := 2 }
        GLUT_MIDDLE_BUTTON GLUT_UP 400 180).edit_ctrlpts_idx = 2 :=
  ⟨congrArg State.edit_ctrlpts_idx
      ((mouse_release_clears_target hit_nothing { initial with edit_ctrlpts_idx := 2 }
        GLUT_LEFT_BUTTON 400 180).1 rfl),
    congrArg State.edit_ctrlpts_idx
      ((mouse_release_clears_target hit_nothing { initial with edit_ctrlpts_idx := 2 }
        GLUT_MIDDLE_BUTTON 400 180).2 (by decide))⟩

/-- C7: for every left-button press at device coordinates `(x, y)`, from every prior state,
`mouse_callback` sets the edit target to the value `hit_index` returns for the query
`(x, height - y)` on the current curve, and leaves the curve (its four control points
included) and the other globals unchanged. -/
theorem mouse_press_sets_target (hit : CubicBezierCurve → Int → Int → Int) (s : State)
    (x y : Int) :
    (mouse_callback hit s GLUT_LEFT_BUTTON GLUT_DOWN x y).edit_ctrlpts_idx
        = hit s.curve x (s.height - y)
      ∧ (mouse_callback hit s GLUT_LEFT_BUTTON GLUT_DOWN x y).curve = s.curve
      ∧ (∀ i, (mouse_callback hit s GLUT_LEFT_BUTTON GLUT_DOWN x y).curve.control_pts i
          = s.curve.control_pts i)
      ∧ mouse_callback hit s GLUT_LEFT_BUTTON GLUT_DOWN x y
          = { s with edit_ctrlpts_idx := hit s.curve x (s.height - y) } := by
  simp [mouse_callback]

/-! ## The edit target over the event loop -/

theorem hit_index_idx_ok (within : Point → Int → Int → Bool) (c : CubicBezierCurve)
    (x y : Int) : idx_ok (c.hit_index within x y) := by
  rcases hit_index_cases within c x y with ⟨h, _⟩ | ⟨r, hr, _, _⟩
  · exact Or.inl h
  · right
    rw [hr]
    have := r.isLt
    omega

theorem mouse_move_defined (s : State) (x y : Int) (h : idx_ok s.edit_ctrlpts_idx) :
    ∃ s1, mouse_move_callback s x y = some s1 ∧ s1.edit_ctrlpts_idx = s.edit_ctrlpts_idx := by
  unfold mouse_move_callback
  by_cases hne : s.edit_ctrlpts_idx ≠ -1
  · have hb : 0 ≤ s.edit_ctrlpts_idx ∧ s.edit_ctrlpts_idx < 4 := by
      rcases h with h | h
      · exact absurd h hne
      · omega
    rw [if_pos hne, dif_pos hb]
    exact ⟨_, rfl, rfl⟩
  · rw [if_neg hne]
    exact ⟨_, rfl, rfl⟩

theorem step_idx_ok (hit : CubicBezierCurve → Int → Int → Int)
    (bez : CubicBezierCurve → REAL → Point) (hhit : ∀ c x y, idx_ok (hit c x y))
    (s : State) (e : Event) (h : idx_ok s.edit_ctrlpts_idx) :
    ∃ s1, step hit bez s e = some s1 ∧ idx_ok s1.edit_ctrlpts_idx := by
  cases e with
  | reshape nw nh => exact ⟨_, rfl, h⟩
  | mouse button action x y =>
    refine ⟨_, rfl, ?_⟩
    unfold mouse_callback
    split_ifs
    · exact hhit _ _ _
    · exact Or.inl rfl
    · exact h
    · exact h
  | motion x y =>
    obtain ⟨s1, h1, h2⟩ := mouse_move_defined s x y h
    exact ⟨s1, h1, h2 ▸ h⟩
  | display => exact ⟨_, rfl, h⟩
  | keyboard key x y =>
    refine ⟨_, rfl, ?_⟩
    unfold keyboard_callback
    split_ifs <;> exact h

theorem run_idx_ok (hit : CubicBezierCurve → Int → Int → Int)
    (bez : CubicBezierCurve → REAL → Point) (hhit : ∀ c x y, idx_ok (hit c x y))
    (es : List Event) :
    ∀ s : State, idx_ok s.edit_ctrlpts_idx →
      ∃ s1, run hit bez s es = some s1 ∧ idx_ok s1.edit_ctrlpts_idx := by
  induction es with
  | nil => intro s h; exact ⟨s, rfl, h⟩
  | cons e es ih =>
    intro s h
    obtain ⟨s1, h1, h2⟩ := step_idx_ok hit bez hhit s e h
    obtain ⟨s2, h3, h4⟩ := ih s1 h2
    exact ⟨s2, by simp [run, h1, h3], h4⟩

/-- C9: assume `hit_index` only returns values in `{-1,0,1,2,3}`.  From every state with
`edit_ctrlpts_idx = -1` (the initial state is one), every sequence of reshape, mouse,
mouse-move, display and keyboard callbacks runs to completion without an out-of-bounds
access, and in the state it reaches `edit_ctrlpts_idx` is in `{-1,0,1,2,3}`; hence
whenever `mouse_move_callback` passes its guard `edit_ctrlpts_idx != -1` in that state,
the subscript is an index in `{0,1,2,3}` and the callback completes. -/
theorem edit_target_in_bounds (hit : CubicBezierCurve → Int → Int → Int)
    (bez : CubicBezierCurve → REAL → Point)
    (hhit : ∀ c x y, hit c x y = -1 ∨ (0 ≤ hit c x y ∧ hit c x y ≤ 3))
    (s0 : State) (h0 : s0.edit_ctrlpts_idx = -1) (es : List Event) :
    ∃ s, run hit bez s0 es = some s
      ∧ (s.edit_ctrlpts_idx = -1 ∨ (0 ≤ s.edit_ctrlpts_idx ∧ s.edit_ctrlpts_idx ≤ 3))
      ∧ (s.edit_ctrlpts_idx ≠ -1 →
          (0 ≤ s.edit_ctrlpts_idx ∧ s.edit_ctrlpts_idx < 4)
            ∧ ∀ x y, ∃ s1, mouse_move_callback s x y = some s1) := by
  obtain ⟨s, hs, hok⟩ := run_idx_ok hit bez hhit es s0 (Or.inl h0)
  refine ⟨s, hs, hok, fun hne => ⟨?_, fun x y => ?_⟩⟩
  · rcases hok with h | h
    · exact absurd h hne
    · omega
  · obtain ⟨s1, h1, _⟩ := mouse_move_defined s x y hok
    exact ⟨s1, h1⟩

/-- C9 at concrete input: a press, a drag, a toggle, a reshape, a redraw, a release and a
move, from the initial state, with the hit test of radius 5 and the Bernstein
evaluation. -/
theorem edit_target_in_bounds_witness :
    initial.edit_ctrlpts_idx = -1 ∧
    ∃ s, run (CubicBezierCurve.hit_index (within_radius 5))
          (fun c t => (c.calc_bezier_to t).2) initial
          [Event.mouse GLUT_LEFT_BUTTON GLUT_DOWN 400 180, Event.motion 410 170,
            Event.keyboard 'l' 0 0, Event.reshape 800 600, Event.display,
            Event.mouse GLUT_LEFT_BUTTON GLUT_UP 410 170, Event.motion 5 5] = some s
      ∧ (s.edit_ctrlpts_idx = -1 ∨ (0 ≤ s.edit_ctrlpts_idx ∧ s.edit_ctrlpts_idx ≤ 3))
      ∧ (s.edit_ctrlpts_idx ≠ -1 →
          (0 ≤ s.edit_ctrlpts_idx ∧ s.edit_ctrlpts_idx < 4)
            ∧ ∀ x y, ∃ s1, mouse_move_callback s x y = some s1) :=
  ⟨rfl, edit_target_in_bounds (CubicBezierCurve.hit_index (within_radius 5))
    (fun c t => (c.calc_bezier_to t).2) (hit_index_idx_ok (within_radius 5)) initial rfl _⟩

/-! ## Redraw -/

theorem sample_t_strictMono : StrictMono sample_t := by
  intro a b hab
  unfold sample_t RES
  have : (a : REAL) < (b : REAL) := by exact_mod_cast hab
  exact div_lt_div_of_pos_right this (by norm_num)

/-- C10 (as stated, refuted): the redraw samples the curve 101 times, not 100. -/
theorem display_samples_not_100 :
    display_samples.length = 101 ∧ display_samples.length ≠ 100 := by
  constructor <;> simp [display_samples, RES]

/-- C10 (amended): on redraw, `display_callback` calls `calc_bezier_to` once for each
parameter `t = i/100`, `i = 0, 1, ..., 100`, in increasing order of `i`: 101 samples that
delimit 100 intervals.  Every sampled `t` lies in `[0,1]`, the first is `0` and the last is
`1`; the vertices emitted between `glBegin` and `glEnd` are the curve points at these
parameters in this order, and the redraw leaves the globals (the control points included)
unchanged. -/
theorem display_samples_grid (bez : CubicBezierCurve → REAL → Point) (s : State) :
    display_samples = (List.range 101).map (fun (i : Nat) => (i : REAL) / 100)
      ∧ display_samples.length = 101
      ∧ display_samples.Pairwise (fun a b => a < b)
      ∧ (∀ t ∈ display_samples, 0 ≤ t ∧ t ≤ 1)
      ∧ display_samples.head? = some 0
      ∧ display_samples.getLast? = some 1
      ∧ ((display_callback bez s).2.drop 3).take 101
          = display_samples.map
              (fun t => GLCmd.glVertex2f (bez s.curve t).x (bez s.curve t).y)
      ∧ ((display_callback bez s).2.drop 3).get? 101 = some GLCmd.glEnd
      ∧ (display_callback bez s).1 = s
      ∧ ∀ i, (display_callback bez s).1.curve.control_pts i = s.curve.control_pts i := by
  have hdef : display_samples = (List.range 101).map (fun (i : Nat) => (i : REAL) / 100) := by
    unfold display_samples sample_t RES
    apply List.map_congr_left
    intro i _
    norm_num
  have hlen : display_samples.length = 101 := by simp [display_samples, RES]
  have hshape : ∃ rest, (display_callback bez s).2.drop 3
      = display_samples.map (fun t => GLCmd.glVertex2f (bez s.curve t).x (bez s.curve t).y)
        ++ GLCmd.glEnd :: rest :=
    ⟨_, by simp only [display_callback, List.append_assoc, List.cons_append,
      List.nil_append, List.drop_succ_cons, List.drop_zero]; rfl⟩
  obtain ⟨rest, hshape⟩ := hshape
  refine ⟨hdef, hlen, ?_, ?_, ?_, ?_, ?_, ?_, rfl, fun _ => rfl⟩
  · unfold display_samples
    rw [List.pairwise_map]
    exact (List.pairwise_lt_range _).imp (fun h => sample_t_strictMono h)
  · intro t ht
    simp only [display_samples, List.mem_map, List.mem_range, RES] at ht
    obtain ⟨i, hi, rfl⟩ := ht
    unfold sample_t RES
    have h1 : (i : REAL) ≤ 100 := by exact_mod_cast Nat.lt_succ_iff.mp hi
    have h0 : (0 : REAL) ≤ (i : REAL) := by exact_mod_cast Nat.zero_le i
    constructor
    · positivity
    · rw [div_le_one (by norm_num)]
      exact_mod_cast h1
  · unfold display_samples RES
    rw [List.range_succ_eq_map]
    simp [sample_t]
  · unfold display_samples RES
    rw [List.range_succ]
    simp [sample_t, RES]
  · rw [hshape]
    exact List.take_left' (by simp [hlen])
  · rw [hshape, List.get?_eq_getElem?,
      List.getElem?_append_right (by simp [hlen])]
    simp [hlen]

end CppBezier
